import Mathlib

/-
Shallow embedding of the GStreamer Vorbis encoder element
(ext/vorbis/vorbisenc.c) and proofs about its header handshake,
granule-position/timestamp bookkeeping, property handling and
sample-ingestion loop.

Modelling conventions:
* guint64 / GstClockTime values are `Nat`, with additions and
  subtractions that the C code performs on guint64 taken modulo 2^64
  (`add64`, `sub64`).  `GST_CLOCK_TIME_NONE` is (guint64)(-1).
* `ogg_int64_t` granule positions are `Int`.
* `gfloat` audio samples are modelled as `ℚ`: the element only moves
  sample values around (deinterleaving), it never computes with them,
  and the single float comparison in the element (`quality >= 0.0`)
  is an exact sign test, so rationals are a faithful carrier.
* The libvorbis backend is opaque: the three header packets produced
  by `vorbis_analysis_headerout` and the data packets drained by
  `vorbis_analysis_blockout` / `vorbis_bitrate_flushpacket` enter the
  model as parameters (`HeaderSizes`, `List Packet`).  What the
  element hands *to* the backend is reported in the result
  (`submitted`, `SetupMode`).
* Downstream pushes (`gst_pad_push`) are modelled as succeeding and
  appending the pushed buffer to an output list.
-/

namespace GstVorbisEnc

/-- Modulus of 64-bit unsigned (guint64) arithmetic. -/
def U64MOD : Nat := 18446744073709551616

/-- GST_CLOCK_TIME_NONE, the guint64 sentinel (guint64)(-1) = 2^64 - 1.
Numerically this is also G_MAXUINT64. -/
def GST_CLOCK_TIME_NONE : Nat := 18446744073709551615

/-- GST_SECOND: one second expressed in nanoseconds. -/
def GST_SECOND : Nat := 1000000000

/-- LOWEST_BITRATE from vorbisenc.c line 143: lowest allowed bitrate. -/
def LOWEST_BITRATE : Int := 6000

/-- guint64 addition (wraps modulo 2^64). -/
def add64 (a b : Nat) : Nat := (a + b) % U64MOD

/-- guint64 subtraction (wraps modulo 2^64). -/
def sub64 (a b : Nat) : Nat := (a % U64MOD + (U64MOD - b % U64MOD)) % U64MOD

/-- Conversion of a signed 64-bit (ogg_int64_t) value to guint64. -/
def toU64 (g : Int) : Nat := (g % (U64MOD : Int)).toNat

/-- Reinterpretation of a guint64 bit pattern as a signed ogg_int64_t
(two's complement). -/
def ofU64 (n : Nat) : Int :=
  if n % U64MOD < 2 ^ 63 then (n % U64MOD : Int) else (n % U64MOD : Int) - (U64MOD : Int)

/-- gst_util_uint64_scale from the host framework (GStreamer core):
computes val * num / denom at full intermediate precision on guint64
operands; per its documented contract it returns G_MAXUINT64 when the
result overflows 64 bits, and fails (returning G_MAXUINT64) when denom
is 0. -/
def gst_util_uint64_scale (val num denom : Nat) : Nat :=
  if denom = 0 then GST_CLOCK_TIME_NONE
  else min (val * num / denom) GST_CLOCK_TIME_NONE

/-- The mutable element state: the fields of struct GstVorbisEnc used by
the modelled code paths (vorbisenc.h / vorbisenc.c).  `channels` and
`frequency` are gint in C but only ever used after caps negotiation
fixes them to positive values, so they are carried as `Nat`. -/
structure State where
  setup : Bool
  header_sent : Bool
  channels : Nat
  frequency : Nat
  bitrate : Int
  min_bitrate : Int
  max_bitrate : Int
  quality : ℚ
  quality_set : Bool
  managed : Bool
  next_ts : Nat
  granulepos_offset : Nat
  subgranule_offset : Nat
  samples_in : Nat
  bytes_out : Nat
deriving DecidableEq

/-- granulepos_to_timestamp_offset (vorbisenc.c lines 98-107): the
conversion taking granulepos_offset and the subgranule time offset
into account. -/
def granulepos_to_timestamp_offset (s : State) (granulepos : Int) : Nat :=
  if 0 ≤ granulepos then
    add64
      (gst_util_uint64_scale (add64 (toU64 granulepos) s.granulepos_offset)
        GST_SECOND s.frequency)
      s.subgranule_offset
  else GST_CLOCK_TIME_NONE

/-- granulepos_to_timestamp (vorbisenc.c lines 110-117): the straight
granulepos -> timestamp conversion. -/
def granulepos_to_timestamp (s : State) (granulepos : Int) : Nat :=
  if 0 ≤ granulepos then
    gst_util_uint64_scale (toU64 granulepos) GST_SECOND s.frequency
  else GST_CLOCK_TIME_NONE

/-- Which packet of the stream an output buffer carries.  The three
header kinds record which of the three packets of
vorbis_analysis_headerout a buffer was built from (identification,
comment, codebook); `data` marks buffers built by
gst_vorbisenc_buffer_from_packet. -/
inductive UnitKind where
  | hdrId
  | hdrComment
  | hdrCodebook
  | data
deriving DecidableEq

/-- One output GstBuffer as observable downstream: its payload size and
the metadata fields the element sets (OFFSET, OFFSET_END, TIMESTAMP,
DURATION), plus the ghost `kind` tag. -/
structure OutUnit where
  kind : UnitKind
  bytes : Nat
  offset : Nat
  offsetEnd : Nat
  timestamp : Nat
  duration : Nat
deriving DecidableEq

/-- One data ogg_packet drained from the backend: payload size and
granule position. -/
structure Packet where
  bytes : Nat
  granulepos : Int
deriving DecidableEq

/-- Sizes of the three header packets produced by
vorbis_analysis_headerout (identification, comment, codebook). -/
structure HeaderSizes where
  idBytes : Nat
  commentBytes : Nat
  codebookBytes : Nat
deriving DecidableEq

/-- One input GstBuffer: its timestamp and its payload read as
interleaved float samples.  GST_BUFFER_SIZE in bytes is
4 * samples.length (sizeof(float) = 4). -/
structure InBuf where
  timestamp : Nat
  samples : List ℚ
deriving DecidableEq

/-- GstFlowReturn values reachable in the modelled paths. -/
inductive FlowReturn where
  | ok
  | unexpected
deriving DecidableEq

/-- Error classes reported via GST_ELEMENT_ERROR on the modelled paths:
CORE/NEGOTIATION from the not_setup path of gst_vorbisenc_chain. -/
inductive ErrClass where
  | coreNegotiation
deriving DecidableEq

/-- gst_vorbisenc_buffer_from_packet (vorbisenc.c lines 816-841):
wraps a drained backend packet as an output buffer; OFFSET_END is the
granulepos plus granulepos_offset, OFFSET its straight time
representation, TIMESTAMP the tracker's next_ts, and the tracker's
next_ts is advanced to the offset-corrected conversion of the packet's
granulepos, which also fixes DURATION = new next_ts - TIMESTAMP. -/
def gst_vorbisenc_buffer_from_packet (s : State) (p : Packet) : OutUnit × State :=
  let offsetEnd := add64 (toU64 p.granulepos) s.granulepos_offset
  let offset := granulepos_to_timestamp s (ofU64 offsetEnd)
  let ts := s.next_ts
  let next := granulepos_to_timestamp_offset s p.granulepos
  ({ kind := UnitKind.data, bytes := p.bytes, offset := offset,
     offsetEnd := offsetEnd, timestamp := ts, duration := sub64 next ts },
   { s with next_ts := next })

/-- gst_vorbisenc_buffer_from_header_packet (vorbisenc.c lines 845-861):
wraps a header packet; OFFSET is the current bytes_out, OFFSET_END is 0,
TIMESTAMP and DURATION are GST_CLOCK_TIME_NONE.  `k` is the ghost tag
recording which header packet was passed. -/
def gst_vorbisenc_buffer_from_header_packet (s : State) (k : UnitKind)
    (bytes : Nat) : OutUnit :=
  { kind := k, bytes := bytes, offset := s.bytes_out, offsetEnd := 0,
    timestamp := GST_CLOCK_TIME_NONE, duration := GST_CLOCK_TIME_NONE }

/-- gst_vorbisenc_push_buffer (vorbisenc.c lines 864-870): bookkeeping
effect of pushing a buffer (bytes_out accounting); the push itself is
modelled by the caller appending the buffer to its output list. -/
def gst_vorbisenc_push_buffer (s : State) (b : OutUnit) : State :=
  { s with bytes_out := add64 s.bytes_out b.bytes }

/-- gst_vorbisenc_output_buffers (vorbisenc.c lines 1070-1097): drain
loop.  The nested vorbis_analysis_blockout / vorbis_bitrate_flushpacket
loops of the opaque backend flatten to the list `ps` of packets drained
in order; each is wrapped by gst_vorbisenc_buffer_from_packet and
pushed (gst_vorbisenc_push_packet, lines 872-879). -/
def gst_vorbisenc_output_buffers (s : State) (ps : List Packet) :
    State × List OutUnit :=
  match ps with
  | [] => (s, [])
  | p :: rest =>
      let ub := gst_vorbisenc_buffer_from_packet s p
      let s1 := gst_vorbisenc_push_buffer ub.2 ub.1
      let r := gst_vorbisenc_output_buffers s1 rest
      (r.1, ub.1 :: r.2)

/-- The header handshake block inside gst_vorbisenc_chain (vorbisenc.c
lines 968-1028): reset the granule clock, build the three header
buffers (all three before any push, so all carry the same bytes_out in
OFFSET), push them in order, then derive granulepos_offset from the
first data buffer's timestamp `t0` and subgranule_offset so that a
granulepos of 0 maps back to `t0`, and set header_sent. -/
def gst_vorbisenc_header_handshake (s : State) (t0 : Nat) (hdr : HeaderSizes) :
    State × List OutUnit :=
  let s0 := { s with next_ts := 0, granulepos_offset := 0, subgranule_offset := 0 }
  let b1 := gst_vorbisenc_buffer_from_header_packet s0 UnitKind.hdrId hdr.idBytes
  let b2 := gst_vorbisenc_buffer_from_header_packet s0 UnitKind.hdrComment hdr.commentBytes
  let b3 := gst_vorbisenc_buffer_from_header_packet s0 UnitKind.hdrCodebook hdr.codebookBytes
  let s1 := gst_vorbisenc_push_buffer (gst_vorbisenc_push_buffer
              (gst_vorbisenc_push_buffer s0 b1) b2) b3
  let s2 := { s1 with next_ts := t0,
                      granulepos_offset := gst_util_uint64_scale t0 s1.frequency GST_SECOND,
                      subgranule_offset := 0 }
  let s3 := { s2 with subgranule_offset := sub64 s2.next_ts (granulepos_to_timestamp_offset s2 0) }
  ({ s3 with header_sent := true }, [b1, b2, b3])

/-- The deinterleaving loop of gst_vorbisenc_chain (lines 1038-1042):
`for i < size: for j < channels: vorbis_buffer[j][i] = *data++` reads
the input linearly, so channel j's analysis buffer holds, at slot i,
input element i * channels + j. -/
def deinterleave (channels size : Nat) (ds : List ℚ) : List (List ℚ) :=
  (List.range channels).map (fun j => (List.range size).map (fun i => ds.getD (i * channels + j) 0))

/-- Result of one gst_vorbisenc_chain call: flow return, the buffers
pushed downstream in order, the new state, what was submitted to the
backend (the per-channel sample blocks handed to vorbis_analysis_buffer
and the count passed to vorbis_analysis_wrote), and any element error
reported. -/
structure ChainResult where
  ret : FlowReturn
  out : List OutUnit
  st : State
  submitted : Option (List (List ℚ) × Nat)
  errored : Option ErrClass
deriving DecidableEq

/-- gst_vorbisenc_chain (vorbisenc.c lines 953-1068).  `hdr` gives the
sizes of the three packets vorbis_analysis_headerout would produce and
`ps` the data packets the backend drain loop yields for this call.
Downstream pushes are modelled as succeeding.  If the element is not
set up the buffer is dropped, GST_ELEMENT_ERROR(CORE, NEGOTIATION) is
reported and GST_FLOW_UNEXPECTED returned with the state untouched. -/
def gst_vorbisenc_chain (s : State) (buf : InBuf) (hdr : HeaderSizes)
    (ps : List Packet) : ChainResult :=
  if s.setup = false then
    { ret := FlowReturn.unexpected, out := [], st := s, submitted := none,
      errored := some ErrClass.coreNegotiation }
  else
    let hs := if s.header_sent then (s, ([] : List OutUnit))
              else gst_vorbisenc_header_handshake s buf.timestamp hdr
    let s1 := hs.1
    let size := (4 * buf.samples.length) / (s1.channels * 4)
    let blocks := deinterleave s1.channels size buf.samples
    let s2 := { s1 with samples_in := add64 s1.samples_in size }
    let ob := gst_vorbisenc_output_buffers s2 ps
    { ret := FlowReturn.ok, out := hs.2 ++ ob.2, st := ob.1,
      submitted := some (blocks, size), errored := none }

/-- gst_vorbisenc_clear (vorbisenc.c lines 793-813), as invoked from the
EOS branch of gst_vorbisenc_sink_event (lines 925-933): when set up, the
backend is told end-of-stream (vorbis_analysis_wrote 0) and the drain
loop runs one final time over whatever packets `ps` the backend still
yields; setup is dropped and header_sent reset in every case. -/
def gst_vorbisenc_clear (s : State) (ps : List Packet) :
    FlowReturn × State × List OutUnit :=
  if s.setup then
    let r := gst_vorbisenc_output_buffers s ps
    (FlowReturn.ok, { r.1 with setup := false, header_sent := false }, r.2)
  else
    (FlowReturn.ok, { s with header_sent := false }, [])

/-- A sequence of gst_vorbisenc_chain calls within one session: each
element of the list is one delivered input buffer together with the
data packets the backend yields while draining after it.  Returns the
final state and the concatenation of all pushed buffers in order. -/
def gst_vorbisenc_run (s : State) (hdr : HeaderSizes) :
    List (InBuf × List Packet) → State × List OutUnit
  | [] => (s, [])
  | (b, ps) :: rest =>
      let r := gst_vorbisenc_chain s b hdr ps
      let rr := gst_vorbisenc_run r.st hdr rest
      (rr.1, r.out ++ rr.2)

/-- Result of one set_property call: the new state and whether a
"managed" g_object_notify was raised. -/
structure PropResult where
  st : State
  notified : Bool
deriving DecidableEq

/-- ARG_MAX_BITRATE branch of gst_vorbisenc_set_property (vorbisenc.c
lines 1145-1163): store, clamp [0, LOWEST_BITRATE) up to
LOWEST_BITRATE, recompute managed, notify iff managed flipped. -/
def gst_vorbisenc_set_max_bitrate (s : State) (v : Int) : PropResult :=
  let old := s.managed
  let m0 := v
  let m1 := if 0 ≤ m0 ∧ m0 < LOWEST_BITRATE then LOWEST_BITRATE else m0
  let s1 := { s with max_bitrate := m1 }
  let s2 := { s1 with managed := decide (0 < s1.min_bitrate ∧ 0 < s1.max_bitrate) }
  { st := s2, notified := decide (old ≠ s2.managed) }

/-- ARG_BITRATE branch of gst_vorbisenc_set_property (vorbisenc.c lines
1164-1170): store and clamp [0, LOWEST_BITRATE) up to LOWEST_BITRATE;
managed is untouched and no notification is raised. -/
def gst_vorbisenc_set_bitrate (s : State) (v : Int) : PropResult :=
  let b1 := if 0 ≤ v ∧ v < LOWEST_BITRATE then LOWEST_BITRATE else v
  { st := { s with bitrate := b1 }, notified := false }

/-- ARG_MIN_BITRATE branch of gst_vorbisenc_set_property (vorbisenc.c
lines 1171-1189): store, clamp [0, LOWEST_BITRATE) up to
LOWEST_BITRATE, recompute managed, notify iff managed flipped. -/
def gst_vorbisenc_set_min_bitrate (s : State) (v : Int) : PropResult :=
  let old := s.managed
  let m0 := v
  let m1 := if 0 ≤ m0 ∧ m0 < LOWEST_BITRATE then LOWEST_BITRATE else m0
  let s1 := { s with min_bitrate := m1 }
  let s2 := { s1 with managed := decide (0 < s1.min_bitrate ∧ 0 < s1.max_bitrate) }
  { st := s2, notified := decide (old ≠ s2.managed) }

/-- ARG_QUALITY branch of gst_vorbisenc_set_property (vorbisenc.c lines
1190-1196): store the value; quality_set becomes true iff the stored
quality is >= 0.0. -/
def gst_vorbisenc_set_quality (s : State) (v : ℚ) : State :=
  let s1 := { s with quality := v }
  if 0 ≤ s1.quality then { s1 with quality_set := true }
  else { s1 with quality_set := false }

/-- ARG_MANAGED branch of gst_vorbisenc_set_property (vorbisenc.c lines
1197-1199). -/
def gst_vorbisenc_set_managed (s : State) (v : Bool) : State :=
  { s with managed := v }

/-- Which backend configuration call gst_vorbisenc_setup makes:
· qualityVBR quality rm — vorbis_encode_setup_vbr with the quality
  value, and, when rm = some (minB, maxB), the additional
  OV_ECTL_RATEMANAGE hard-constraint call with those bounds;
· managedBitrate maxB target minB — vorbis_encode_setup_managed with
  those arguments (-1 sentinels for unset bounds). -/
inductive SetupMode where
  | qualityVBR (quality : ℚ) (rm : Option (Int × Int))
  | managedBitrate (maxB target minB : Int)
deriving DecidableEq

/-- gst_vorbisenc_setup (vorbisenc.c lines 716-791): force quality_set
when all three bitrate knobs are unset, then select the backend setup
call from quality_set; finally reset next_ts and mark the element set
up (the opaque backend calls are modelled as succeeding). -/
def gst_vorbisenc_setup (s : State) : State × SetupMode :=
  let s0 := { s with setup := false }
  let s1 := if s0.bitrate < 0 ∧ s0.min_bitrate < 0 ∧ s0.max_bitrate < 0 then
              { s0 with quality_set := true }
            else s0
  if s1.quality_set then
    let rm := if 0 < s1.max_bitrate ∨ 0 < s1.min_bitrate then
                some (s1.min_bitrate, s1.max_bitrate)
              else none
    ({ s1 with next_ts := 0, setup := true }, SetupMode.qualityVBR s1.quality rm)
  else
    let minB := if 0 < s1.min_bitrate then s1.min_bitrate else -1
    let maxB := if 0 < s1.max_bitrate then s1.max_bitrate else -1
    ({ s1 with next_ts := 0, setup := true }, SetupMode.managedBitrate maxB s1.bitrate minB)

/-- The state from which the data-drain part of a first-buffer
gst_vorbisenc_chain call runs: the post-handshake state with samples_in
advanced by the submitted frame count. -/
def chainMidState (s : State) (b : InBuf) (hdr : HeaderSizes) : State :=
  { (gst_vorbisenc_header_handshake s b.timestamp hdr).1 with
    samples_in := add64 (gst_vorbisenc_header_handshake s b.timestamp hdr).1.samples_in
      ((4 * b.samples.length)
        / ((gst_vorbisenc_header_handshake s b.timestamp hdr).1.channels * 4)) }

/-- A freshly set-up one-channel session at 25000 Hz with default
property values, used to instantiate theorems at concrete inputs. -/
def exampleState : State :=
  { setup := true, header_sent := false, channels := 1, frequency := 25000,
    bitrate := -1, min_bitrate := -1, max_bitrate := -1, quality := 3 / 10,
    quality_set := false, managed := false, next_ts := 0,
    granulepos_offset := 0, subgranule_offset := 0, samples_in := 0,
    bytes_out := 0 }

/-- As exampleState but at 44100 Hz, matching the spec's offset-correction
example. -/
def exampleState44100 : State :=
  { exampleState with frequency := 44100 }

/-- Example header packet sizes (a real identification header is 30
bytes). -/
def exampleHdr : HeaderSizes :=
  { idBytes := 30, commentBytes := 52, codebookBytes := 4000 }


lemma U64MOD_pos : 0 < U64MOD := by decide

lemma none_lt_mod : GST_CLOCK_TIME_NONE < U64MOD := by decide

lemma add64_eq {a b : Nat} (h : a + b < U64MOD) : add64 a b = a + b := by
  simp [add64, Nat.mod_eq_of_lt h]

lemma sub64_eq {a b : Nat} (hb : b ≤ a) (ha : a < U64MOD) : sub64 a b = a - b := by
  have hbm : b < U64MOD := lt_of_le_of_lt hb ha
  simp only [sub64, Nat.mod_eq_of_lt ha, Nat.mod_eq_of_lt hbm]
  have h1 : a + (U64MOD - b) = (a - b) + U64MOD := by omega
  rw [h1, Nat.add_mod_right, Nat.mod_eq_of_lt (by omega)]

lemma toU64_of_nonneg {g : Int} (h0 : 0 ≤ g) (h1 : g < (U64MOD : Int)) :
    toU64 g = g.toNat := by
  simp [toU64, Int.emod_eq_of_lt h0 h1]

lemma uscale_eq {val num denom : Nat} (hd : 0 < denom)
    (h : val * num / denom ≤ GST_CLOCK_TIME_NONE) :
    gst_util_uint64_scale val num denom = val * num / denom := by
  simp [gst_util_uint64_scale, Nat.pos_iff_ne_zero.mp hd, min_eq_left h]


lemma gtso_congr {s1 s2 : State} (g : Int)
    (h1 : s1.granulepos_offset = s2.granulepos_offset)
    (h2 : s1.subgranule_offset = s2.subgranule_offset)
    (h3 : s1.frequency = s2.frequency) :
    granulepos_to_timestamp_offset s1 g = granulepos_to_timestamp_offset s2 g := by
  simp [granulepos_to_timestamp_offset, h1, h2, h3]

lemma gtso_exact {s : State} {g : Int} (hg : 0 ≤ g)
    (hfreq : 0 < s.frequency)
    (hadd : g.toNat + s.granulepos_offset < U64MOD)
    (htot : (g.toNat + s.granulepos_offset) * GST_SECOND / s.frequency
              + s.subgranule_offset < U64MOD) :
    granulepos_to_timestamp_offset s g
      = (g.toNat + s.granulepos_offset) * GST_SECOND / s.frequency
          + s.subgranule_offset := by
  have hglt : g < (U64MOD : Int) := by
    have : g.toNat < U64MOD := by omega
    omega
  have ht : toU64 g = g.toNat := toU64_of_nonneg hg hglt
  have hs : gst_util_uint64_scale (g.toNat + s.granulepos_offset) GST_SECOND s.frequency
      = (g.toNat + s.granulepos_offset) * GST_SECOND / s.frequency := by
    apply uscale_eq hfreq
    have := htot
    unfold GST_CLOCK_TIME_NONE U64MOD at *
    omega
  rw [granulepos_to_timestamp_offset, if_pos hg, ht, add64_eq hadd, hs,
    add64_eq htot]

/-- Claim C7: a buffer delivered while the session is not set up is
discarded (no output, nothing submitted to the backend), a fatal
CORE/NEGOTIATION element error is reported, GST_FLOW_UNEXPECTED is
returned, and the encoder state (granule clock, header_sent,
samples_in and every other field) is left unchanged. -/
theorem C7_not_setup_error (s : State) (buf : InBuf) (hdr : HeaderSizes)
    (ps : List Packet) (h : s.setup = false) :
    gst_vorbisenc_chain s buf hdr ps =
      { ret := FlowReturn.unexpected, out := [], st := s, submitted := none,
        errored := some ErrClass.coreNegotiation } := by
  simp [gst_vorbisenc_chain, h]

/-- Witness for C7 at a concrete not-set-up state and buffer. -/
theorem C7_not_setup_error_witness :
    ({ exampleState with setup := false } : State).setup = false ∧
    gst_vorbisenc_chain { exampleState with setup := false }
        { timestamp := 0, samples := [1, 2] } exampleHdr [⟨7, 3⟩] =
      { ret := FlowReturn.unexpected, out := [], st := { exampleState with setup := false },
        submitted := none, errored := some ErrClass.coreNegotiation } :=
  ⟨rfl, C7_not_setup_error _ _ _ _ rfl⟩

/-- Claim C8: both granule-position-to-timestamp conversions map any
negative granule position (in particular the backend's -1 sentinel) to
GST_CLOCK_TIME_NONE, which is nonzero; for non-negative positions in
int64 range the direct conversion is granule_position * GST_SECOND /
frequency (exact, provided that quotient fits a guint64). -/
theorem C8_negative_granulepos (s : State) (g : Int) :
    (g < 0 → granulepos_to_timestamp s g = GST_CLOCK_TIME_NONE
      ∧ granulepos_to_timestamp_offset s g = GST_CLOCK_TIME_NONE
      ∧ GST_CLOCK_TIME_NONE ≠ 0)
    ∧ (0 ≤ g → g < (U64MOD : Int) → 0 < s.frequency →
        g.toNat * GST_SECOND / s.frequency ≤ GST_CLOCK_TIME_NONE →
        granulepos_to_timestamp s g = g.toNat * GST_SECOND / s.frequency) := by
  constructor
  · intro hg
    refine ⟨?_, ?_, by decide⟩
    · simp [granulepos_to_timestamp, not_le.mpr hg]
    · simp [granulepos_to_timestamp_offset, not_le.mpr hg]
  · intro hg hglt hfreq hfit
    rw [granulepos_to_timestamp, if_pos hg, toU64_of_nonneg hg hglt,
      uscale_eq hfreq hfit]

/-- Witness for C8 at granule positions -1 and 44100 with rate 25000. -/
theorem C8_negative_granulepos_witness :
    ((-1 : Int) < 0 ∧ granulepos_to_timestamp exampleState (-1) = GST_CLOCK_TIME_NONE
      ∧ granulepos_to_timestamp_offset exampleState (-1) = GST_CLOCK_TIME_NONE
      ∧ GST_CLOCK_TIME_NONE ≠ 0)
    ∧ granulepos_to_timestamp exampleState 44100 = 1764000000 :=
  ⟨⟨by decide, ((C8_negative_granulepos exampleState (-1)).1 (by decide))⟩,
    by
      have h := (C8_negative_granulepos exampleState 44100).2 (by decide) (by decide)
        (by decide) (by decide)
      simpa using h⟩


/-- Claim C2: gst_vorbisenc_setup selects the vorbis_encode_setup_vbr
path iff quality was explicitly set (quality_set) or all three bitrate
knobs are unset; otherwise it selects vorbis_encode_setup_managed with
-1 sentinels for unset bounds; and assigning a positive bitrate and a
non-negative quality yields the same mode in either order. -/
theorem C2_mode_selection (s : State) :
    ((∃ q rm, (gst_vorbisenc_setup s).2 = SetupMode.qualityVBR q rm) ↔
      (s.quality_set = true ∨ (s.bitrate < 0 ∧ s.min_bitrate < 0 ∧ s.max_bitrate < 0)))
    ∧ (¬(s.quality_set = true ∨ (s.bitrate < 0 ∧ s.min_bitrate < 0 ∧ s.max_bitrate < 0)) →
        (gst_vorbisenc_setup s).2 = SetupMode.managedBitrate
          (if 0 < s.max_bitrate then s.max_bitrate else -1) s.bitrate
          (if 0 < s.min_bitrate then s.min_bitrate else -1))
    ∧ (∀ (b : Int) (q : ℚ), 0 < b → 0 ≤ q →
        (gst_vorbisenc_setup (gst_vorbisenc_set_quality (gst_vorbisenc_set_bitrate s b).st q)).2
          = (gst_vorbisenc_setup (gst_vorbisenc_set_bitrate (gst_vorbisenc_set_quality s q) b).st).2) := by
  refine ⟨?_, ?_, ?_⟩
  · by_cases hall : s.bitrate < 0 ∧ s.min_bitrate < 0 ∧ s.max_bitrate < 0
    · simp [gst_vorbisenc_setup, hall]
    · by_cases hq : s.quality_set = true
      · simp [gst_vorbisenc_setup, hall, hq]
      · simp only [Bool.not_eq_true] at hq
        simp [gst_vorbisenc_setup, hall, hq]
  · intro hnot
    have hq : s.quality_set = false := by
      cases h : s.quality_set
      · rfl
      · exact absurd (Or.inl h) hnot
    have hall : ¬(s.bitrate < 0 ∧ s.min_bitrate < 0 ∧ s.max_bitrate < 0) :=
      fun h => hnot (Or.inr h)
    simp [gst_vorbisenc_setup, hall, hq]
  · intro b q hb hq
    have hstates :
        (gst_vorbisenc_set_quality (gst_vorbisenc_set_bitrate s b).st q)
          = (gst_vorbisenc_set_bitrate (gst_vorbisenc_set_quality s q) b).st := by
      simp [gst_vorbisenc_set_quality, gst_vorbisenc_set_bitrate, hq]
    rw [hstates]

/-- Witness for C2's order-independence at bitrate 128000 and quality
1/2 on the default fresh state. -/
theorem C2_mode_selection_witness :
    ((0 : Int) < 128000 ∧ (0 : ℚ) ≤ 1 / 2) ∧
    (gst_vorbisenc_setup (gst_vorbisenc_set_quality
        (gst_vorbisenc_set_bitrate exampleState 128000).st (1 / 2))).2
      = (gst_vorbisenc_setup (gst_vorbisenc_set_bitrate
          (gst_vorbisenc_set_quality exampleState (1 / 2)) 128000).st).2 :=
  ⟨⟨by decide, by norm_num⟩,
    (C2_mode_selection exampleState).2.2 128000 (1 / 2) (by decide) (by norm_num)⟩

/-- Claim C6: for the min_bitrate and max_bitrate properties a
non-negative value below LOWEST_BITRATE (6000) is clamped up to
LOWEST_BITRATE, afterwards managed = (min_bitrate > 0 AND
max_bitrate > 0), and the "managed" notification fires iff the managed
flag flipped; the same floor clamp applies to the bitrate property. -/
theorem C6_bitrate_floor (s : State) (v : Int) :
    ((gst_vorbisenc_set_min_bitrate s v).st.min_bitrate
        = (if 0 ≤ v ∧ v < LOWEST_BITRATE then LOWEST_BITRATE else v))
    ∧ ((gst_vorbisenc_set_min_bitrate s v).st.managed = true ↔
        (0 < (gst_vorbisenc_set_min_bitrate s v).st.min_bitrate
          ∧ 0 < (gst_vorbisenc_set_min_bitrate s v).st.max_bitrate))
    ∧ ((gst_vorbisenc_set_min_bitrate s v).notified = true ↔
        (gst_vorbisenc_set_min_bitrate s v).st.managed ≠ s.managed)
    ∧ ((gst_vorbisenc_set_max_bitrate s v).st.max_bitrate
        = (if 0 ≤ v ∧ v < LOWEST_BITRATE then LOWEST_BITRATE else v))
    ∧ ((gst_vorbisenc_set_max_bitrate s v).st.managed = true ↔
        (0 < (gst_vorbisenc_set_max_bitrate s v).st.min_bitrate
          ∧ 0 < (gst_vorbisenc_set_max_bitrate s v).st.max_bitrate))
    ∧ ((gst_vorbisenc_set_max_bitrate s v).notified = true ↔
        (gst_vorbisenc_set_max_bitrate s v).st.managed ≠ s.managed)
    ∧ ((gst_vorbisenc_set_bitrate s v).st.bitrate
        = (if 0 ≤ v ∧ v < LOWEST_BITRATE then LOWEST_BITRATE else v))
    ∧ ((gst_vorbisenc_set_bitrate s v).st.managed = s.managed)
    ∧ ((gst_vorbisenc_set_bitrate s v).notified = false) := by
  refine ⟨rfl, ?_, ?_, rfl, ?_, ?_, rfl, rfl, rfl⟩
  · simp [gst_vorbisenc_set_min_bitrate]
  · simp [gst_vorbisenc_set_min_bitrate, ne_comm]
  · simp [gst_vorbisenc_set_max_bitrate]
  · simp [gst_vorbisenc_set_max_bitrate, ne_comm]

/-- Claim C10: the quality property marks quality_set iff the assigned
value is >= 0; a negative assignment clears quality_set, so with any
bitrate knob set the subsequent setup selects the managed path, while
with all knobs unset setup forces quality_set and passes the negative
quality to vorbis_encode_setup_vbr. -/
theorem C10_quality_flag (s : State) (v : ℚ) :
    ((gst_vorbisenc_set_quality s v).quality_set = true ↔ 0 ≤ v)
    ∧ (v < 0 → ¬(s.bitrate < 0 ∧ s.min_bitrate < 0 ∧ s.max_bitrate < 0) →
        ∃ a b c, (gst_vorbisenc_setup (gst_vorbisenc_set_quality s v)).2
          = SetupMode.managedBitrate a b c)
    ∧ (v < 0 → (s.bitrate < 0 ∧ s.min_bitrate < 0 ∧ s.max_bitrate < 0) →
        (gst_vorbisenc_setup (gst_vorbisenc_set_quality s v)).1.quality_set = true
        ∧ (gst_vorbisenc_setup (gst_vorbisenc_set_quality s v)).2
            = SetupMode.qualityVBR v none) := by
  refine ⟨?_, ?_, ?_⟩
  · by_cases hq : 0 ≤ v
    · simp [gst_vorbisenc_set_quality, hq]
    · simp [gst_vorbisenc_set_quality, hq]
  · intro hv hknobs
    have hq : ¬ (0 ≤ v) := not_le.mpr hv
    refine ⟨(if 0 < s.max_bitrate then s.max_bitrate else -1), s.bitrate,
      (if 0 < s.min_bitrate then s.min_bitrate else -1), ?_⟩
    simp [gst_vorbisenc_setup, gst_vorbisenc_set_quality, hq, hknobs]
  · intro hv hall
    have hq : ¬ (0 ≤ v) := not_le.mpr hv
    have h1 : ¬ (0 < s.max_bitrate) := by omega
    have h2 : ¬ (0 < s.min_bitrate) := by omega
    constructor
    · simp [gst_vorbisenc_setup, gst_vorbisenc_set_quality, hq, hall]
    · simp [gst_vorbisenc_setup, gst_vorbisenc_set_quality, hq, hall, h1, h2]

/-- Witness for C10 at quality -1/20: the flag clears; with bitrate
128000 set, setup goes managed; on the all-unset default state, setup
forces the flag and uses -1/20 in the VBR mode. -/
theorem C10_quality_flag_witness :
    ((-1 / 20 : ℚ) < 0
      ∧ ¬((gst_vorbisenc_set_bitrate exampleState 128000).st.bitrate < 0
          ∧ (gst_vorbisenc_set_bitrate exampleState 128000).st.min_bitrate < 0
          ∧ (gst_vorbisenc_set_bitrate exampleState 128000).st.max_bitrate < 0)
      ∧ ∃ a b c,
          (gst_vorbisenc_setup (gst_vorbisenc_set_quality
            (gst_vorbisenc_set_bitrate exampleState 128000).st (-1 / 20))).2
            = SetupMode.managedBitrate a b c)
    ∧ ((exampleState.bitrate < 0 ∧ exampleState.min_bitrate < 0
          ∧ exampleState.max_bitrate < 0)
      ∧ (gst_vorbisenc_setup (gst_vorbisenc_set_quality exampleState (-1 / 20))).1.quality_set = true
      ∧ (gst_vorbisenc_setup (gst_vorbisenc_set_quality exampleState (-1 / 20))).2
          = SetupMode.qualityVBR (-1 / 20) none) :=
  ⟨⟨by norm_num, by decide,
      (C10_quality_flag (gst_vorbisenc_set_bitrate exampleState 128000).st (-1 / 20)).2.1
        (by norm_num) (by decide)⟩,
    ⟨by decide,
      (C10_quality_flag exampleState (-1 / 20)).2.2 (by norm_num) (by decide)⟩⟩


lemma handshake_gpo (s : State) (t0 : Nat) (hdr : HeaderSizes) :
    (gst_vorbisenc_header_handshake s t0 hdr).1.granulepos_offset
      = gst_util_uint64_scale t0 s.frequency GST_SECOND := rfl

lemma handshake_next_ts (s : State) (t0 : Nat) (hdr : HeaderSizes) :
    (gst_vorbisenc_header_handshake s t0 hdr).1.next_ts = t0 := rfl

lemma handshake_sent (s : State) (t0 : Nat) (hdr : HeaderSizes) :
    (gst_vorbisenc_header_handshake s t0 hdr).1.header_sent = true := rfl

lemma handshake_setup (s : State) (t0 : Nat) (hdr : HeaderSizes) :
    (gst_vorbisenc_header_handshake s t0 hdr).1.setup = s.setup := rfl

lemma handshake_channels (s : State) (t0 : Nat) (hdr : HeaderSizes) :
    (gst_vorbisenc_header_handshake s t0 hdr).1.channels = s.channels := rfl

lemma handshake_frequency (s : State) (t0 : Nat) (hdr : HeaderSizes) :
    (gst_vorbisenc_header_handshake s t0 hdr).1.frequency = s.frequency := rfl

lemma handshake_samples_in (s : State) (t0 : Nat) (hdr : HeaderSizes) :
    (gst_vorbisenc_header_handshake s t0 hdr).1.samples_in = s.samples_in := rfl

lemma handshake_out (s : State) (t0 : Nat) (hdr : HeaderSizes) :
    (gst_vorbisenc_header_handshake s t0 hdr).2
      = [{ kind := UnitKind.hdrId, bytes := hdr.idBytes, offset := s.bytes_out,
           offsetEnd := 0, timestamp := GST_CLOCK_TIME_NONE,
           duration := GST_CLOCK_TIME_NONE },
         { kind := UnitKind.hdrComment, bytes := hdr.commentBytes, offset := s.bytes_out,
           offsetEnd := 0, timestamp := GST_CLOCK_TIME_NONE,
           duration := GST_CLOCK_TIME_NONE },
         { kind := UnitKind.hdrCodebook, bytes := hdr.codebookBytes, offset := s.bytes_out,
           offsetEnd := 0, timestamp := GST_CLOCK_TIME_NONE,
           duration := GST_CLOCK_TIME_NONE }] := rfl

lemma handshake_sgo (s : State) (t0 : Nat) (hdr : HeaderSizes) :
    (gst_vorbisenc_header_handshake s t0 hdr).1.subgranule_offset
      = sub64 t0 (add64 (gst_util_uint64_scale
          (add64 (toU64 0) (gst_util_uint64_scale t0 s.frequency GST_SECOND))
          GST_SECOND s.frequency) 0) := by
  show sub64 t0 (granulepos_to_timestamp_offset _ 0) = _
  rw [granulepos_to_timestamp_offset, if_pos (le_refl (0 : Int))]
  rfl


lemma GST_SECOND_pos : 0 < GST_SECOND := by decide

lemma toU64_zero : toU64 0 = 0 := by simp [toU64]

lemma gpo_exact {t0 F : Nat} (hFle : F ≤ GST_SECOND) (ht0 : t0 < U64MOD) :
    gst_util_uint64_scale t0 F GST_SECOND = t0 * F / GST_SECOND
    ∧ t0 * F / GST_SECOND ≤ t0 := by
  have hle : t0 * F / GST_SECOND ≤ t0 := by
    calc t0 * F / GST_SECOND ≤ t0 * GST_SECOND / GST_SECOND :=
          Nat.div_le_div_right (Nat.mul_le_mul_left t0 hFle)
      _ = t0 := Nat.mul_div_cancel t0 GST_SECOND_pos
  refine ⟨uscale_eq GST_SECOND_pos ?_, hle⟩
  have : t0 ≤ GST_CLOCK_TIME_NONE := by
    unfold U64MOD at ht0
    unfold GST_CLOCK_TIME_NONE
    omega
  exact le_trans hle this

lemma roundtrip_le {t0 F : Nat} (hFpos : 0 < F) :
    (t0 * F / GST_SECOND) * GST_SECOND / F ≤ t0 := by
  calc (t0 * F / GST_SECOND) * GST_SECOND / F
      ≤ t0 * F / F := Nat.div_le_div_right (Nat.div_mul_le_self _ _)
    _ = t0 := Nat.mul_div_cancel t0 hFpos

lemma handshake_exact (s : State) (t0 : Nat) (hdr : HeaderSizes)
    (hFpos : 0 < s.frequency) (hFle : s.frequency ≤ GST_SECOND)
    (ht0 : t0 < U64MOD) :
    (gst_vorbisenc_header_handshake s t0 hdr).1.granulepos_offset
        = t0 * s.frequency / GST_SECOND
    ∧ (gst_vorbisenc_header_handshake s t0 hdr).1.subgranule_offset
        = t0 - (t0 * s.frequency / GST_SECOND) * GST_SECOND / s.frequency
    ∧ granulepos_to_timestamp_offset (gst_vorbisenc_header_handshake s t0 hdr).1 0
        = t0 := by
  obtain ⟨hgpo, hgpole⟩ := gpo_exact hFle ht0
  have hMnone : GST_CLOCK_TIME_NONE + 1 = U64MOD := by decide
  set gpoV := t0 * s.frequency / GST_SECOND with hgpoV
  have hgpolt : gpoV < U64MOD := lt_of_le_of_lt hgpole ht0
  set c0v := gpoV * GST_SECOND / s.frequency with hc0v
  have hc0le : c0v ≤ t0 := roundtrip_le hFpos
  have hc0lt : c0v < U64MOD := lt_of_le_of_lt hc0le ht0
  have huscale : gst_util_uint64_scale (add64 (toU64 0) gpoV) GST_SECOND s.frequency = c0v := by
    rw [toU64_zero, add64_eq (by omega), Nat.zero_add]
    exact uscale_eq hFpos (by omega)
  have hsgoval : (gst_vorbisenc_header_handshake s t0 hdr).1.subgranule_offset
      = t0 - c0v := by
    rw [handshake_sgo, hgpo, huscale, add64_eq (by omega), Nat.add_zero,
      sub64_eq hc0le ht0]
  refine ⟨by rw [handshake_gpo, hgpo], hsgoval, ?_⟩
  rw [granulepos_to_timestamp_offset, if_pos (le_refl (0 : Int)),
    handshake_gpo, handshake_frequency, hgpo, huscale, hsgoval,
    add64_eq (by omega)]
  omega


lemma ob_preserves (ps : List Packet) (s : State) :
    (gst_vorbisenc_output_buffers s ps).1.setup = s.setup
    ∧ (gst_vorbisenc_output_buffers s ps).1.header_sent = s.header_sent
    ∧ (gst_vorbisenc_output_buffers s ps).1.channels = s.channels
    ∧ (gst_vorbisenc_output_buffers s ps).1.frequency = s.frequency
    ∧ (gst_vorbisenc_output_buffers s ps).1.granulepos_offset = s.granulepos_offset
    ∧ (gst_vorbisenc_output_buffers s ps).1.subgranule_offset = s.subgranule_offset
    ∧ (gst_vorbisenc_output_buffers s ps).1.samples_in = s.samples_in := by
  induction ps generalizing s with
  | nil => exact ⟨rfl, rfl, rfl, rfl, rfl, rfl, rfl⟩
  | cons p rest ih =>
      obtain ⟨h1, h2, h3, h4, h5, h6, h7⟩ := ih
        (gst_vorbisenc_push_buffer (gst_vorbisenc_buffer_from_packet s p).2
          (gst_vorbisenc_buffer_from_packet s p).1)
      exact ⟨h1, h2, h3, h4, h5, h6, h7⟩

lemma chain_fresh_st (s : State) (buf : InBuf) (hdr : HeaderSizes)
    (ps : List Packet) (hs : s.setup = true) (hh : s.header_sent = false) :
    (gst_vorbisenc_chain s buf hdr ps).st.granulepos_offset
        = (gst_vorbisenc_header_handshake s buf.timestamp hdr).1.granulepos_offset
    ∧ (gst_vorbisenc_chain s buf hdr ps).st.subgranule_offset
        = (gst_vorbisenc_header_handshake s buf.timestamp hdr).1.subgranule_offset
    ∧ (gst_vorbisenc_chain s buf hdr ps).st.frequency = s.frequency
    ∧ (gst_vorbisenc_chain s buf hdr ps).st.header_sent = true
    ∧ (gst_vorbisenc_chain s buf hdr ps).st.setup = true := by
  have hset : ¬ (s.setup = false) := by simp [hs]
  simp only [gst_vorbisenc_chain, if_neg hset, hh, Bool.false_eq_true, if_neg,
    ite_false]
  obtain ⟨h1, h2, h3, h4, h5, h6, h7⟩ := ob_preserves ps _
  refine ⟨?_, ?_, ?_, ?_, ?_⟩
  · rw [h5]
  · rw [h6]
  · rw [h4]; exact handshake_frequency s buf.timestamp hdr
  · rw [h2]; exact handshake_sent s buf.timestamp hdr
  · rw [h1]; rw [handshake_setup]; exact hs

/-- Claim C4: after the header handshake on the first data buffer,
granulepos_offset = timestamp * rate / GST_SECOND, and
subgranule_offset is such that the offset-corrected conversion of
granule position 0 is exactly that timestamp; thereafter an emitted
granule position g converts to
(g + granulepos_offset) * GST_SECOND / rate + subgranule_offset
(whenever that value fits a guint64). -/
theorem C4_offset_derivation (s : State) (buf : InBuf) (hdr : HeaderSizes)
    (ps : List Packet) (hs : s.setup = true) (hh : s.header_sent = false)
    (hFpos : 0 < s.frequency) (hFle : s.frequency ≤ GST_SECOND)
    (ht0 : buf.timestamp < U64MOD) :
    (gst_vorbisenc_chain s buf hdr ps).st.granulepos_offset
        = buf.timestamp * s.frequency / GST_SECOND
    ∧ granulepos_to_timestamp_offset (gst_vorbisenc_chain s buf hdr ps).st 0
        = buf.timestamp
    ∧ (∀ g : Int, 0 ≤ g →
        g.toNat + (gst_vorbisenc_chain s buf hdr ps).st.granulepos_offset < U64MOD →
        (g.toNat + (gst_vorbisenc_chain s buf hdr ps).st.granulepos_offset)
            * GST_SECOND / s.frequency
          + (gst_vorbisenc_chain s buf hdr ps).st.subgranule_offset < U64MOD →
        granulepos_to_timestamp_offset (gst_vorbisenc_chain s buf hdr ps).st g
          = (g.toNat + (gst_vorbisenc_chain s buf hdr ps).st.granulepos_offset)
              * GST_SECOND / s.frequency
            + (gst_vorbisenc_chain s buf hdr ps).st.subgranule_offset) := by
  obtain ⟨e1, e2, e3, e4, e5⟩ := chain_fresh_st s buf hdr ps hs hh
  obtain ⟨x1, x2, x3⟩ := handshake_exact s buf.timestamp hdr hFpos hFle ht0
  refine ⟨by rw [e1, x1], ?_, ?_⟩
  · rw [gtso_congr 0 e1 e2 (by rw [e3, handshake_frequency])]
    exact x3
  · intro g hg hb1 hb2
    have := @gtso_exact (gst_vorbisenc_chain s buf hdr ps).st g hg
      (by rw [e3]; exact hFpos) hb1 (by rw [e3]; exact hb2)
    rw [this, e3]

/-- Witness for C4 at timestamp 1 s, rate 44100: the derived
granulepos_offset is 44100, granule 0 maps back to 1 s, and granule
44100 maps to 2 s. -/
theorem C4_offset_derivation_witness :
    (exampleState44100.setup = true ∧ exampleState44100.header_sent = false
      ∧ 0 < exampleState44100.frequency
      ∧ exampleState44100.frequency ≤ GST_SECOND
      ∧ (1000000000 : Nat) < U64MOD)
    ∧ (gst_vorbisenc_chain exampleState44100 { timestamp := 1000000000, samples := [] }
        exampleHdr []).st.granulepos_offset = 44100
    ∧ granulepos_to_timestamp_offset
        (gst_vorbisenc_chain exampleState44100 { timestamp := 1000000000, samples := [] }
          exampleHdr []).st 0 = 1000000000
    ∧ granulepos_to_timestamp_offset
        (gst_vorbisenc_chain exampleState44100 { timestamp := 1000000000, samples := [] }
          exampleHdr []).st 44100 = 2000000000 := by
  have h := C4_offset_derivation exampleState44100
    { timestamp := 1000000000, samples := [] } exampleHdr [] rfl rfl
    (by decide) (by decide) (by decide)
  refine ⟨⟨rfl, rfl, by decide, by decide, by decide⟩, ?_, h.2.1, ?_⟩
  · rw [h.1]; decide
  · rw [h.2.2 44100 (by decide) (by decide) (by decide)]
    decide


lemma ob_kinds (ps : List Packet) (s : State) :
    ∀ u ∈ (gst_vorbisenc_output_buffers s ps).2, u.kind = UnitKind.data := by
  induction ps generalizing s with
  | nil => intro u hu; simp [gst_vorbisenc_output_buffers] at hu
  | cons p rest ih =>
      intro u hu
      simp only [gst_vorbisenc_output_buffers, List.mem_cons] at hu
      rcases hu with h | h
      · subst h; rfl
      · exact ih _ u h

lemma chain_sent_kinds (s : State) (b : InBuf) (hdr : HeaderSizes)
    (ps : List Packet) (hh : s.header_sent = true) :
    (∀ u ∈ (gst_vorbisenc_chain s b hdr ps).out, u.kind = UnitKind.data)
    ∧ (gst_vorbisenc_chain s b hdr ps).st.header_sent = true := by
  by_cases hs : s.setup = false
  · simp [gst_vorbisenc_chain, hs, hh]
  · simp only [gst_vorbisenc_chain, if_neg hs, hh, if_pos]
    constructor
    · intro u hu
      simp only [List.nil_append] at hu
      exact ob_kinds ps _ u hu
    · rw [(ob_preserves ps _).2.1]

lemma run_sent_kinds (hdr : HeaderSizes) (ins : List (InBuf × List Packet))
    (s : State) (hh : s.header_sent = true) :
    (∀ u ∈ (gst_vorbisenc_run s hdr ins).2, u.kind = UnitKind.data)
    ∧ (gst_vorbisenc_run s hdr ins).1.header_sent = true := by
  induction ins generalizing s with
  | nil => exact ⟨by intro u hu; simp [gst_vorbisenc_run] at hu, hh⟩
  | cons bp rest ih =>
      obtain ⟨b, ps⟩ := bp
      obtain ⟨hk, hsent⟩ := chain_sent_kinds s b hdr ps hh
      obtain ⟨hk2, hsent2⟩ := ih (gst_vorbisenc_chain s b hdr ps).st hsent
      constructor
      · intro u hu
        simp only [gst_vorbisenc_run, List.mem_append] at hu
        rcases hu with h | h
        · exact hk u h
        · exact hk2 u h
      · exact hsent2

lemma chain_fresh_out (s : State) (b : InBuf) (hdr : HeaderSizes)
    (ps : List Packet) (hs : s.setup = true) (hh : s.header_sent = false) :
    ∃ dtail, (gst_vorbisenc_chain s b hdr ps).out
        = (gst_vorbisenc_header_handshake s b.timestamp hdr).2 ++ dtail
      ∧ ∀ u ∈ dtail, u.kind = UnitKind.data := by
  have hset : ¬ (s.setup = false) := by simp [hs]
  simp only [gst_vorbisenc_chain, if_neg hset, hh, Bool.false_eq_true, ite_false]
  exact ⟨_, rfl, ob_kinds ps _⟩

/-- Claim C1: in any session, from a freshly set up state the first
three pushed units are exactly the header bundle in order
(identification, comment, codebook), each with TIMESTAMP and DURATION
GST_CLOCK_TIME_NONE and OFFSET_END 0, and every later unit is a data
unit; moreover once header_sent holds the handshake never runs again:
from such a state only data units are emitted and header_sent stays
true. -/
theorem C1_header_first (s : State) (hdr : HeaderSizes)
    (inp : InBuf × List Packet) (rest : List (InBuf × List Packet))
    (hs : s.setup = true) (hh : s.header_sent = false) :
    (∃ tail, (gst_vorbisenc_run s hdr (inp :: rest)).2
        = { kind := UnitKind.hdrId, bytes := hdr.idBytes, offset := s.bytes_out,
            offsetEnd := 0, timestamp := GST_CLOCK_TIME_NONE,
            duration := GST_CLOCK_TIME_NONE }
          :: { kind := UnitKind.hdrComment, bytes := hdr.commentBytes,
               offset := s.bytes_out, offsetEnd := 0,
               timestamp := GST_CLOCK_TIME_NONE,
               duration := GST_CLOCK_TIME_NONE }
          :: { kind := UnitKind.hdrCodebook, bytes := hdr.codebookBytes,
               offset := s.bytes_out, offsetEnd := 0,
               timestamp := GST_CLOCK_TIME_NONE,
               duration := GST_CLOCK_TIME_NONE }
          :: tail
        ∧ ∀ u ∈ tail, u.kind = UnitKind.data)
    ∧ (∀ (s2 : State) (ins : List (InBuf × List Packet)),
        s2.header_sent = true →
        (∀ u ∈ (gst_vorbisenc_run s2 hdr ins).2, u.kind = UnitKind.data)
        ∧ (gst_vorbisenc_run s2 hdr ins).1.header_sent = true) := by
  constructor
  · obtain ⟨b, ps⟩ := inp
    obtain ⟨dtail, hout, hdtail⟩ := chain_fresh_out s b hdr ps hs hh
    have hsent : (gst_vorbisenc_chain s b hdr ps).st.header_sent = true :=
      (chain_fresh_st s b hdr ps hs hh).2.2.2.1
    obtain ⟨hrk, _⟩ := run_sent_kinds hdr rest (gst_vorbisenc_chain s b hdr ps).st hsent
    refine ⟨dtail ++ (gst_vorbisenc_run (gst_vorbisenc_chain s b hdr ps).st hdr rest).2, ?_, ?_⟩
    · show (gst_vorbisenc_chain s b hdr ps).out
          ++ (gst_vorbisenc_run (gst_vorbisenc_chain s b hdr ps).st hdr rest).2 = _
      rw [hout, handshake_out]
      simp
    · intro u hu
      rcases List.mem_append.mp hu with h | h
      · exact hdtail u h
      · exact hrk u h
  · intro s2 ins h2
    exact run_sent_kinds hdr ins s2 h2

/-- Witness for C1 on the fresh example session with one input buffer
and one drained packet. -/
theorem C1_header_first_witness :
    (exampleState.setup = true ∧ exampleState.header_sent = false)
    ∧ ((∃ tail, (gst_vorbisenc_run exampleState exampleHdr
          [({ timestamp := 0, samples := [1, 2] }, [⟨9, 2⟩])]).2
        = { kind := UnitKind.hdrId, bytes := exampleHdr.idBytes,
            offset := exampleState.bytes_out, offsetEnd := 0,
            timestamp := GST_CLOCK_TIME_NONE, duration := GST_CLOCK_TIME_NONE }
          :: { kind := UnitKind.hdrComment, bytes := exampleHdr.commentBytes,
               offset := exampleState.bytes_out, offsetEnd := 0,
               timestamp := GST_CLOCK_TIME_NONE, duration := GST_CLOCK_TIME_NONE }
          :: { kind := UnitKind.hdrCodebook, bytes := exampleHdr.codebookBytes,
               offset := exampleState.bytes_out, offsetEnd := 0,
               timestamp := GST_CLOCK_TIME_NONE, duration := GST_CLOCK_TIME_NONE }
          :: tail
        ∧ ∀ u ∈ tail, u.kind = UnitKind.data)
    ∧ (∀ (s2 : State) (ins : List (InBuf × List Packet)),
        s2.header_sent = true →
        (∀ u ∈ (gst_vorbisenc_run s2 exampleHdr ins).2, u.kind = UnitKind.data)
        ∧ (gst_vorbisenc_run s2 exampleHdr ins).1.header_sent = true)) :=
  ⟨⟨rfl, rfl⟩,
    C1_header_first exampleState exampleHdr ({ timestamp := 0, samples := [1, 2] }, [⟨9, 2⟩]) [] rfl rfl⟩


lemma ob_out (ps : List Packet) (s : State) :
    (gst_vorbisenc_output_buffers s ps).2.map OutUnit.timestamp
      = (s.next_ts :: ps.map (fun p => granulepos_to_timestamp_offset s p.granulepos)).dropLast
    ∧ (gst_vorbisenc_output_buffers s ps).2.map OutUnit.duration
      = List.zipWith sub64
          (ps.map (fun p => granulepos_to_timestamp_offset s p.granulepos))
          ((s.next_ts :: ps.map (fun p => granulepos_to_timestamp_offset s p.granulepos)).dropLast)
    ∧ (gst_vorbisenc_output_buffers s ps).1.next_ts
      = (ps.map (fun p => granulepos_to_timestamp_offset s p.granulepos)).getLastD s.next_ts := by
  induction ps generalizing s with
  | nil => exact ⟨rfl, rfl, rfl⟩
  | cons p rest ih =>
      obtain ⟨ih1, ih2, ih3⟩ := ih
        (gst_vorbisenc_push_buffer (gst_vorbisenc_buffer_from_packet s p).2
          (gst_vorbisenc_buffer_from_packet s p).1)
      have hnext : (gst_vorbisenc_push_buffer (gst_vorbisenc_buffer_from_packet s p).2
          (gst_vorbisenc_buffer_from_packet s p).1).next_ts
          = granulepos_to_timestamp_offset s p.granulepos := rfl
      have hcongr : ∀ q : Packet,
          granulepos_to_timestamp_offset
            (gst_vorbisenc_push_buffer (gst_vorbisenc_buffer_from_packet s p).2
              (gst_vorbisenc_buffer_from_packet s p).1) q.granulepos
          = granulepos_to_timestamp_offset s q.granulepos := by
        intro q
        exact gtso_congr q.granulepos rfl rfl rfl
      have hmap : rest.map (fun q => granulepos_to_timestamp_offset
            (gst_vorbisenc_push_buffer (gst_vorbisenc_buffer_from_packet s p).2
              (gst_vorbisenc_buffer_from_packet s p).1) q.granulepos)
          = rest.map (fun q => granulepos_to_timestamp_offset s q.granulepos) :=
        List.map_congr_left (fun q _ => hcongr q)
      rw [hnext, hmap] at ih1 ih2 ih3
      refine ⟨?_, ?_, ?_⟩
      · show s.next_ts :: (gst_vorbisenc_output_buffers _ rest).2.map OutUnit.timestamp = _
        rw [ih1, List.map_cons, List.dropLast_cons₂]
      · show sub64 (granulepos_to_timestamp_offset s p.granulepos) s.next_ts
            :: (gst_vorbisenc_output_buffers _ rest).2.map OutUnit.duration = _
        rw [ih2, List.map_cons, List.dropLast_cons₂, List.zipWith_cons_cons]
      · show (gst_vorbisenc_output_buffers _ rest).1.next_ts = _
        rw [ih3, List.map_cons, List.getLastD_cons]


lemma dropLast_cons_getLastD (t : Nat) (xs : List Nat) :
    (t :: xs).dropLast ++ [xs.getLastD t] = t :: xs := by
  induction xs generalizing t with
  | nil => rfl
  | cons x xs' ih =>
      rw [List.dropLast_cons₂, List.getLastD_cons, List.cons_append, ih]

lemma tsOf_append (t : Nat) (xs ys : List Nat) :
    (t :: (xs ++ ys)).dropLast
      = (t :: xs).dropLast ++ (xs.getLastD t :: ys).dropLast := by
  cases ys with
  | nil => simp
  | cons y ys' =>
      have h1 : (t :: (xs ++ y :: ys')).dropLast
          = (t :: xs) ++ (y :: ys').dropLast := by
        rw [show t :: (xs ++ y :: ys') = (t :: xs) ++ y :: ys' from rfl]
        exact List.dropLast_append_cons
      rw [h1, List.dropLast_cons₂, ← dropLast_cons_getLastD t xs,
        List.append_assoc]
      simp

lemma getLastD_append (t : Nat) (xs ys : List Nat) :
    (xs ++ ys).getLastD t = ys.getLastD (xs.getLastD t) := by
  induction xs generalizing t with
  | nil => rfl
  | cons x xs' ih =>
      rw [List.cons_append, List.getLastD_cons, List.getLastD_cons, ih]

lemma chain_sent_out (s : State) (b : InBuf) (hdr : HeaderSizes)
    (ps : List Packet) (hs : s.setup = true) (hh : s.header_sent = true) :
    (gst_vorbisenc_chain s b hdr ps).out.map OutUnit.timestamp
      = (s.next_ts :: ps.map (fun p => granulepos_to_timestamp_offset s p.granulepos)).dropLast
    ∧ (gst_vorbisenc_chain s b hdr ps).out.map OutUnit.duration
      = List.zipWith sub64
          (ps.map (fun p => granulepos_to_timestamp_offset s p.granulepos))
          ((s.next_ts :: ps.map (fun p => granulepos_to_timestamp_offset s p.granulepos)).dropLast)
    ∧ (gst_vorbisenc_chain s b hdr ps).st.next_ts
      = (ps.map (fun p => granulepos_to_timestamp_offset s p.granulepos)).getLastD s.next_ts
    ∧ (gst_vorbisenc_chain s b hdr ps).st.granulepos_offset = s.granulepos_offset
    ∧ (gst_vorbisenc_chain s b hdr ps).st.subgranule_offset = s.subgranule_offset
    ∧ (gst_vorbisenc_chain s b hdr ps).st.frequency = s.frequency
    ∧ (gst_vorbisenc_chain s b hdr ps).st.setup = true
    ∧ (gst_vorbisenc_chain s b hdr ps).st.header_sent = true := by
  have hset : ¬ (s.setup = false) := by simp [hs]
  simp only [gst_vorbisenc_chain, if_neg hset]
  rw [if_pos hh]
  simp only [List.nil_append]
  have hcongr : ∀ q : Packet,
      granulepos_to_timestamp_offset
        { s with samples_in := add64 s.samples_in ((4 * b.samples.length) / (s.channels * 4)) }
        q.granulepos
      = granulepos_to_timestamp_offset s q.granulepos :=
    fun q => gtso_congr q.granulepos rfl rfl rfl
  obtain ⟨o1, o2, o3⟩ := ob_out ps
    { s with samples_in := add64 s.samples_in ((4 * b.samples.length) / (s.channels * 4)) }
  obtain ⟨p1, p2, p3, p4, p5, p6, p7⟩ := ob_preserves ps
    { s with samples_in := add64 s.samples_in ((4 * b.samples.length) / (s.channels * 4)) }
  have hmap : (ps.map (fun q => granulepos_to_timestamp_offset
        { s with samples_in := add64 s.samples_in ((4 * b.samples.length) / (s.channels * 4)) }
        q.granulepos))
      = ps.map (fun q => granulepos_to_timestamp_offset s q.granulepos) :=
    List.map_congr_left (fun q _ => hcongr q)
  rw [hmap] at o1 o2 o3
  exact ⟨o1, o2, o3, p5, p6, p4, by rw [p1]; exact hs, by rw [p2]; exact hh⟩


lemma run_sent_out (hdr : HeaderSizes) (ins : List (InBuf × List Packet))
    (s : State) (hs : s.setup = true) (hh : s.header_sent = true) :
    (gst_vorbisenc_run s hdr ins).2.map OutUnit.timestamp
      = (s.next_ts :: ((ins.map Prod.snd).flatten).map
          (fun p => granulepos_to_timestamp_offset s p.granulepos)).dropLast
    ∧ (gst_vorbisenc_run s hdr ins).2.map OutUnit.duration
      = List.zipWith sub64
          (((ins.map Prod.snd).flatten).map
            (fun p => granulepos_to_timestamp_offset s p.granulepos))
          ((s.next_ts :: ((ins.map Prod.snd).flatten).map
            (fun p => granulepos_to_timestamp_offset s p.granulepos)).dropLast)
    ∧ (gst_vorbisenc_run s hdr ins).1.next_ts
      = (((ins.map Prod.snd).flatten).map
          (fun p => granulepos_to_timestamp_offset s p.granulepos)).getLastD s.next_ts
    ∧ (gst_vorbisenc_run s hdr ins).1.granulepos_offset = s.granulepos_offset
    ∧ (gst_vorbisenc_run s hdr ins).1.subgranule_offset = s.subgranule_offset
    ∧ (gst_vorbisenc_run s hdr ins).1.frequency = s.frequency := by
  induction ins generalizing s with
  | nil => exact ⟨by simp [gst_vorbisenc_run], by simp [gst_vorbisenc_run],
      rfl, rfl, rfl, rfl⟩
  | cons bp rest ih =>
      obtain ⟨b, ps⟩ := bp
      obtain ⟨c1, c2, c3, c4, c5, c6, c7, c8⟩ := chain_sent_out s b hdr ps hs hh
      obtain ⟨i1, i2, i3, i4, i5, i6⟩ := ih (gst_vorbisenc_chain s b hdr ps).st c7 c8
      have hcongr : ∀ q : Packet,
          granulepos_to_timestamp_offset (gst_vorbisenc_chain s b hdr ps).st q.granulepos
            = granulepos_to_timestamp_offset s q.granulepos :=
        fun q => gtso_congr q.granulepos c4 c5 c6
      have hmapJ : ((rest.map Prod.snd).flatten).map
            (fun p => granulepos_to_timestamp_offset (gst_vorbisenc_chain s b hdr ps).st p.granulepos)
          = ((rest.map Prod.snd).flatten).map
            (fun p => granulepos_to_timestamp_offset s p.granulepos) :=
        List.map_congr_left (fun q _ => hcongr q)
      rw [hmapJ, c3] at i1 i2 i3
      have hjoin : ((((b, ps) :: rest).map Prod.snd).flatten)
          = ps ++ (rest.map Prod.snd).flatten := rfl
      have hrun2 : (gst_vorbisenc_run s hdr ((b, ps) :: rest)).2
          = (gst_vorbisenc_chain s b hdr ps).out
            ++ (gst_vorbisenc_run (gst_vorbisenc_chain s b hdr ps).st hdr rest).2 := rfl
      have hrun1 : (gst_vorbisenc_run s hdr ((b, ps) :: rest)).1
          = (gst_vorbisenc_run (gst_vorbisenc_chain s b hdr ps).st hdr rest).1 := rfl
      have hlen : (ps.map (fun p => granulepos_to_timestamp_offset s p.granulepos)).length
          = ((s.next_ts :: ps.map (fun p => granulepos_to_timestamp_offset s p.granulepos)).dropLast).length := by
        rw [List.length_dropLast, List.length_cons]
        omega
      refine ⟨?_, ?_, ?_, ?_, ?_, ?_⟩
      · rw [hrun2, List.map_append, c1, i1, hjoin, List.map_append, tsOf_append]
      · rw [hrun2, List.map_append, c2, i2, hjoin, List.map_append, tsOf_append,
          List.zipWith_append _ _ _ _ _ hlen]
      · rw [hrun1, i3, hjoin, List.map_append, getLastD_append]
      · rw [hrun1, i4, c4]
      · rw [hrun1, i5, c5]
      · rw [hrun1, i6, c6]


lemma corrected_exact_bounded {st : State} {g : Int}
    (hg0 : 0 ≤ g) (hgB : g ≤ 2 ^ 44)
    (hF1 : 8000 ≤ st.frequency) (hF2 : st.frequency ≤ 50000)
    (hgpo : st.granulepos_offset ≤ 2 ^ 44) (hsgo : st.subgranule_offset ≤ 2 ^ 44) :
    granulepos_to_timestamp_offset st g
      = (g.toNat + st.granulepos_offset) * GST_SECOND / st.frequency
          + st.subgranule_offset
    ∧ granulepos_to_timestamp_offset st g < U64MOD := by
  have hFpos : 0 < st.frequency := by omega
  have hgN : g.toNat ≤ 2 ^ 44 := by
    have := Int.toNat_le_toNat hgB
    simpa using this
  have hadd : g.toNat + st.granulepos_offset < U64MOD := by
    unfold U64MOD; omega
  have hval : (g.toNat + st.granulepos_offset) * GST_SECOND / st.frequency
      ≤ 2 ^ 45 * GST_SECOND / 8000 := by
    calc (g.toNat + st.granulepos_offset) * GST_SECOND / st.frequency
        ≤ (g.toNat + st.granulepos_offset) * GST_SECOND / 8000 :=
          Nat.div_le_div_left hF1 (by norm_num)
      _ ≤ 2 ^ 45 * GST_SECOND / 8000 :=
          Nat.div_le_div_right (Nat.mul_le_mul_right _ (by omega))
  have htot : (g.toNat + st.granulepos_offset) * GST_SECOND / st.frequency
      + st.subgranule_offset < U64MOD := by
    have h45 : (2 ^ 45) * GST_SECOND / 8000 = 4398046511104000000 := by
      unfold GST_SECOND; norm_num
    rw [h45] at hval
    unfold U64MOD
    omega
  exact ⟨gtso_exact hg0 hFpos hadd htot, by
    rw [gtso_exact hg0 hFpos hadd htot]; exact htot⟩

lemma corrected_mono_bounded {st : State} {g g' : Int}
    (hg0 : 0 ≤ g) (hgB : g ≤ 2 ^ 44) (hg0' : 0 ≤ g') (hgB' : g' ≤ 2 ^ 44)
    (hle : g ≤ g')
    (hF1 : 8000 ≤ st.frequency) (hF2 : st.frequency ≤ 50000)
    (hgpo : st.granulepos_offset ≤ 2 ^ 44) (hsgo : st.subgranule_offset ≤ 2 ^ 44) :
    granulepos_to_timestamp_offset st g ≤ granulepos_to_timestamp_offset st g' := by
  rw [(corrected_exact_bounded hg0 hgB hF1 hF2 hgpo hsgo).1,
    (corrected_exact_bounded hg0' hgB' hF1 hF2 hgpo hsgo).1]
  have : g.toNat ≤ g'.toNat := Int.toNat_le_toNat hle
  exact Nat.add_le_add_right
    (Nat.div_le_div_right (Nat.mul_le_mul_right _ (by omega))) _

lemma chain_corrected_mono (st : State) (l : List Packet)
    (hb : ∀ p ∈ l, 0 ≤ p.granulepos ∧ p.granulepos ≤ 2 ^ 44)
    (hc : List.Chain' (fun p q => p.granulepos ≤ q.granulepos) l)
    (hF1 : 8000 ≤ st.frequency) (hF2 : st.frequency ≤ 50000)
    (hgpo : st.granulepos_offset ≤ 2 ^ 44) (hsgo : st.subgranule_offset ≤ 2 ^ 44) :
    List.Chain' (· ≤ ·)
      (l.map (fun p => granulepos_to_timestamp_offset st p.granulepos)) := by
  induction l with
  | nil => simp
  | cons p rest ih =>
      cases rest with
      | nil => simp
      | cons q rest' =>
          rw [List.map_cons, List.map_cons, List.chain'_cons]
          obtain ⟨hpq, hc'⟩ := List.chain'_cons.mp hc
          obtain ⟨hp0, hpB⟩ := hb p (by simp)
          obtain ⟨hq0, hqB⟩ := hb q (by simp)
          refine ⟨corrected_mono_bounded hp0 hpB hq0 hqB hpq hF1 hF2 hgpo hsgo, ?_⟩
          have := ih (fun r hr => hb r (List.mem_cons_of_mem p hr)) hc'
          rw [List.map_cons] at this
          exact this

lemma chain_le_dropLast {α : Type} {R : α → α → Prop} :
    ∀ (l : List α), List.Chain' R l → List.Chain' R l.dropLast
  | [], _ => by simp
  | [_], _ => by simp
  | a :: b :: t, h => by
      obtain ⟨hab, ht⟩ := List.chain'_cons.mp h
      have ih := chain_le_dropLast (b :: t) ht
      rw [List.dropLast_cons₂]
      cases t with
      | nil => simp
      | cons c tl =>
          rw [List.dropLast_cons₂] at ih ⊢
          exact List.chain'_cons.mpr ⟨hab, ih⟩

lemma chain_rel_of_maps {ds : List OutUnit} {t : Nat} {cs : List Nat}
    (hts : ds.map OutUnit.timestamp = (t :: cs).dropLast)
    (hdur : ds.map OutUnit.duration
      = List.zipWith sub64 cs ((t :: cs).dropLast))
    (hmono : List.Chain' (· ≤ ·) (t :: cs))
    (hlt : ∀ x ∈ t :: cs, x < U64MOD) :
    List.Chain' (fun u v => u.timestamp ≤ v.timestamp
      ∧ u.duration = v.timestamp - u.timestamp) ds := by
  induction ds generalizing t cs with
  | nil => simp
  | cons u ds' ih =>
      cases cs with
      | nil =>
          exfalso
          have := congrArg List.length hts
          simp at this
      | cons c cs' =>
          rw [List.dropLast_cons₂, List.map_cons] at hts
          obtain ⟨hut, hts'⟩ := List.cons_eq_cons.mp hts
          rw [List.dropLast_cons₂, List.map_cons, List.zipWith_cons_cons] at hdur
          obtain ⟨hud, hdur'⟩ := List.cons_eq_cons.mp hdur
          obtain ⟨htc, hmono'⟩ := List.chain'_cons.mp hmono
          have hclt : c < U64MOD := hlt c (by simp)
          have htlt : t < U64MOD := hlt t (by simp)
          have ihres := ih hts' hdur' hmono'
            (fun x hx => hlt x (List.mem_cons_of_mem t hx))
          cases ds' with
          | nil => simp
          | cons v ds'' =>
              rw [List.chain'_cons]
              refine ⟨?_, ihres⟩
              have hvt : v.timestamp = c := by
                cases cs' with
                | nil =>
                    exfalso
                    have := congrArg List.length hts'
                    simp at this
                | cons c' cs'' =>
                    rw [List.dropLast_cons₂, List.map_cons] at hts'
                    exact (List.cons_eq_cons.mp hts').1
              constructor
              · rw [hut, hvt]; exact htc
              · rw [hut, hvt, hud, sub64_eq htc hclt]


lemma chain_fresh_decomp (s : State) (b : InBuf) (hdr : HeaderSizes)
    (ps : List Packet) (hs : s.setup = true) (hh : s.header_sent = false) :
    (gst_vorbisenc_chain s b hdr ps).out
      = (gst_vorbisenc_header_handshake s b.timestamp hdr).2
        ++ (gst_vorbisenc_output_buffers (chainMidState s b hdr) ps).2
    ∧ (gst_vorbisenc_chain s b hdr ps).st
      = (gst_vorbisenc_output_buffers (chainMidState s b hdr) ps).1 := by
  have hset : ¬ (s.setup = false) := by simp [hs]
  have hneg : ¬ (s.header_sent = true) := by simp [hh]
  simp only [gst_vorbisenc_chain, if_neg hset]
  rw [if_neg hneg]
  exact ⟨rfl, rfl⟩


/-- Claim C3 (amended): within a session whose backend granule
positions are non-negative, non-decreasing and bounded (≤ 2^44, with
rate in the negotiated 8000–50000 range and first timestamp ≤ 2^44, so
that no 64-bit overflow occurs), the data units' timestamps trace the
tracker's next_ts (first unit at the first buffer's timestamp, unit
i+1 at the offset-corrected conversion of granule position i), each
unit's duration is the next unit's timestamp minus its own, and the
timestamps are non-decreasing. -/
theorem C3_amended (s : State) (hdr : HeaderSizes) (b0 : InBuf)
    (ps0 : List Packet) (rest : List (InBuf × List Packet))
    (hs : s.setup = true) (hh : s.header_sent = false)
    (hf1 : 8000 ≤ s.frequency) (hf2 : s.frequency ≤ 50000)
    (ht0 : b0.timestamp ≤ 2 ^ 44)
    (hg : ∀ p ∈ ps0 ++ (rest.map Prod.snd).flatten,
        0 ≤ p.granulepos ∧ p.granulepos ≤ 2 ^ 44)
    (hmono : List.Chain' (fun p q => p.granulepos ≤ q.granulepos)
        (ps0 ++ (rest.map Prod.snd).flatten)) :
    ((gst_vorbisenc_run s hdr ((b0, ps0) :: rest)).2.drop 3).map OutUnit.timestamp
      = (b0.timestamp :: (ps0 ++ (rest.map Prod.snd).flatten).map
          (fun p => granulepos_to_timestamp_offset
            (gst_vorbisenc_chain s b0 hdr ps0).st p.granulepos)).dropLast
    ∧ List.Chain' (fun u v => u.timestamp ≤ v.timestamp
        ∧ u.duration = v.timestamp - u.timestamp)
        ((gst_vorbisenc_run s hdr ((b0, ps0) :: rest)).2.drop 3)
    ∧ List.Chain' (· ≤ ·)
        (((gst_vorbisenc_run s hdr ((b0, ps0) :: rest)).2.drop 3).map
          OutUnit.timestamp) := by
  obtain ⟨hdec1, hdec2⟩ := chain_fresh_decomp s b0 hdr ps0 hs hh
  have hFpos : 0 < s.frequency := by omega
  have hFle : s.frequency ≤ GST_SECOND := by unfold GST_SECOND; omega
  have ht0M : b0.timestamp < U64MOD := by unfold U64MOD at *; omega
  obtain ⟨hx1, hx2, hx3⟩ := handshake_exact s b0.timestamp hdr hFpos hFle ht0M
  obtain ⟨q1, q2, q3, q4, q5, q6, q7⟩ := ob_preserves ps0 (chainMidState s b0 hdr)
  -- field facts about the mid state and the post-first-call state
  have hMgpo : (chainMidState s b0 hdr).granulepos_offset
      = (gst_vorbisenc_header_handshake s b0.timestamp hdr).1.granulepos_offset := rfl
  have hMsgo : (chainMidState s b0 hdr).subgranule_offset
      = (gst_vorbisenc_header_handshake s b0.timestamp hdr).1.subgranule_offset := rfl
  have hMfreq : (chainMidState s b0 hdr).frequency = s.frequency :=
    handshake_frequency s b0.timestamp hdr
  have hMnext : (chainMidState s b0 hdr).next_ts = b0.timestamp :=
    handshake_next_ts s b0.timestamp hdr
  have hMsetup : (chainMidState s b0 hdr).setup = s.setup :=
    handshake_setup s b0.timestamp hdr
  have hMsent : (chainMidState s b0 hdr).header_sent = true :=
    handshake_sent s b0.timestamp hdr
  have hPgpo : (gst_vorbisenc_chain s b0 hdr ps0).st.granulepos_offset
      = (chainMidState s b0 hdr).granulepos_offset := by rw [hdec2]; exact q5
  have hPsgo : (gst_vorbisenc_chain s b0 hdr ps0).st.subgranule_offset
      = (chainMidState s b0 hdr).subgranule_offset := by rw [hdec2]; exact q6
  have hPfreq : (gst_vorbisenc_chain s b0 hdr ps0).st.frequency = s.frequency := by
    rw [hdec2, q4, hMfreq]
  have hPsetup : (gst_vorbisenc_chain s b0 hdr ps0).st.setup = true := by
    rw [hdec2, q1, hMsetup]; exact hs
  have hPsent : (gst_vorbisenc_chain s b0 hdr ps0).st.header_sent = true := by
    rw [hdec2, q2]; exact hMsent
  -- bound transfers
  obtain ⟨_, hgple⟩ := gpo_exact hFle ht0M
  have hgpoB : (gst_vorbisenc_chain s b0 hdr ps0).st.granulepos_offset ≤ 2 ^ 44 := by
    rw [hPgpo, hMgpo, hx1]; exact le_trans hgple ht0
  have hsgoB : (gst_vorbisenc_chain s b0 hdr ps0).st.subgranule_offset ≤ 2 ^ 44 := by
    rw [hPsgo, hMsgo, hx2]; exact le_trans (Nat.sub_le _ _) ht0
  have hPf1 : 8000 ≤ (gst_vorbisenc_chain s b0 hdr ps0).st.frequency := by
    rw [hPfreq]; exact hf1
  have hPf2 : (gst_vorbisenc_chain s b0 hdr ps0).st.frequency ≤ 50000 := by
    rw [hPfreq]; exact hf2
  -- round trip at the post state
  have hP0 : granulepos_to_timestamp_offset (gst_vorbisenc_chain s b0 hdr ps0).st 0
      = b0.timestamp := by
    rw [gtso_congr 0 (hPgpo.trans hMgpo) (hPsgo.trans hMsgo)
      (by rw [hPfreq, ← handshake_frequency s b0.timestamp hdr])]
    exact hx3
  -- congruence between conversions at the mid and post states
  have hcongr : ∀ q : Packet,
      granulepos_to_timestamp_offset (chainMidState s b0 hdr) q.granulepos
        = granulepos_to_timestamp_offset (gst_vorbisenc_chain s b0 hdr ps0).st q.granulepos :=
    fun q => gtso_congr q.granulepos hPgpo.symm hPsgo.symm
      (by rw [hPfreq, ← hMfreq])
  -- pieces of the first call
  obtain ⟨o1, o2, o3⟩ := ob_out ps0 (chainMidState s b0 hdr)
  rw [hMnext, List.map_congr_left (fun q _ => hcongr q)] at o1 o2 o3
  -- the post state's next_ts
  have hPnext : (gst_vorbisenc_chain s b0 hdr ps0).st.next_ts
      = (ps0.map (fun p => granulepos_to_timestamp_offset
          (gst_vorbisenc_chain s b0 hdr ps0).st p.granulepos)).getLastD b0.timestamp := by
    conv_lhs => rw [hdec2]
    exact o3
  -- pieces of the remaining calls
  obtain ⟨r1, r2, r3, r4, r5, r6⟩ :=
    run_sent_out hdr rest (gst_vorbisenc_chain s b0 hdr ps0).st hPsetup hPsent
  rw [hPnext] at r1 r2
  -- the data units of the whole run
  have hds : ((gst_vorbisenc_run s hdr ((b0, ps0) :: rest)).2.drop 3)
      = (gst_vorbisenc_output_buffers (chainMidState s b0 hdr) ps0).2
        ++ (gst_vorbisenc_run (gst_vorbisenc_chain s b0 hdr ps0).st hdr rest).2 := by
    have hrun2 : (gst_vorbisenc_run s hdr ((b0, ps0) :: rest)).2
        = (gst_vorbisenc_chain s b0 hdr ps0).out
          ++ (gst_vorbisenc_run (gst_vorbisenc_chain s b0 hdr ps0).st hdr rest).2 := rfl
    rw [hrun2, hdec1, handshake_out, List.append_assoc]
    rfl
  have hlen : (ps0.map (fun p => granulepos_to_timestamp_offset
        (gst_vorbisenc_chain s b0 hdr ps0).st p.granulepos)).length
      = ((b0.timestamp :: ps0.map (fun p => granulepos_to_timestamp_offset
          (gst_vorbisenc_chain s b0 hdr ps0).st p.granulepos)).dropLast).length := by
    rw [List.length_dropLast, List.length_cons]
    omega
  -- conjunct 1: timestamp trace
  have hts : ((gst_vorbisenc_run s hdr ((b0, ps0) :: rest)).2.drop 3).map OutUnit.timestamp
      = (b0.timestamp :: (ps0 ++ (rest.map Prod.snd).flatten).map
          (fun p => granulepos_to_timestamp_offset
            (gst_vorbisenc_chain s b0 hdr ps0).st p.granulepos)).dropLast := by
    rw [hds, List.map_append, o1, r1, List.map_append, tsOf_append]
  -- duration trace
  have hdur : ((gst_vorbisenc_run s hdr ((b0, ps0) :: rest)).2.drop 3).map OutUnit.duration
      = List.zipWith sub64
          ((ps0 ++ (rest.map Prod.snd).flatten).map
            (fun p => granulepos_to_timestamp_offset
              (gst_vorbisenc_chain s b0 hdr ps0).st p.granulepos))
          ((b0.timestamp :: (ps0 ++ (rest.map Prod.snd).flatten).map
            (fun p => granulepos_to_timestamp_offset
              (gst_vorbisenc_chain s b0 hdr ps0).st p.granulepos)).dropLast) := by
    rw [hds, List.map_append, o2, r2, List.map_append, tsOf_append,
      List.zipWith_append _ _ _ _ _ hlen]
  -- monotone timestamp list with all entries below 2^64
  have hfull : List.Chain' (· ≤ ·)
      (b0.timestamp :: (ps0 ++ (rest.map Prod.snd).flatten).map
        (fun p => granulepos_to_timestamp_offset
          (gst_vorbisenc_chain s b0 hdr ps0).st p.granulepos)) := by
    have htail := chain_corrected_mono (gst_vorbisenc_chain s b0 hdr ps0).st
      (ps0 ++ (rest.map Prod.snd).flatten) hg hmono hPf1 hPf2 hgpoB hsgoB
    cases hcase : ps0 ++ (rest.map Prod.snd).flatten with
    | nil => simp
    | cons p ptail =>
        rw [hcase] at htail
        rw [List.map_cons]
        rw [List.map_cons] at htail
        rw [List.chain'_cons]
        refine ⟨?_, htail⟩
        obtain ⟨hp0, hpB⟩ := hg p (by rw [hcase]; simp)
        have := @corrected_mono_bounded (gst_vorbisenc_chain s b0 hdr ps0).st
          0 p.granulepos le_rfl (by norm_num) hp0 hpB hp0
          hPf1 hPf2 hgpoB hsgoB
        rw [hP0] at this
        exact this
  have hlt : ∀ x ∈ b0.timestamp :: (ps0 ++ (rest.map Prod.snd).flatten).map
        (fun p => granulepos_to_timestamp_offset
          (gst_vorbisenc_chain s b0 hdr ps0).st p.granulepos), x < U64MOD := by
    intro x hx
    rcases List.mem_cons.mp hx with h | h
    · subst h; exact ht0M
    · obtain ⟨p, hp, hpx⟩ := List.mem_map.mp h
      obtain ⟨hp0, hpB⟩ := hg p hp
      rw [← hpx]
      exact (corrected_exact_bounded hp0 hpB hPf1 hPf2 hgpoB hsgoB).2
  refine ⟨hts, chain_rel_of_maps hts hdur hfull hlt, ?_⟩
  rw [hts]
  exact chain_le_dropLast _ hfull


/-- Witness for C3 (amended) on the example session: one input buffer
at timestamp 0 and two drained packets with granule positions 0 and 1. -/
theorem C3_amended_witness :
    (exampleState.setup = true ∧ exampleState.header_sent = false
      ∧ 8000 ≤ exampleState.frequency ∧ exampleState.frequency ≤ 50000
      ∧ ({ timestamp := 0, samples := [1] } : InBuf).timestamp ≤ 2 ^ 44
      ∧ (∀ p ∈ ([⟨10, 0⟩, ⟨10, 1⟩] : List Packet)
          ++ (([] : List (InBuf × List Packet)).map Prod.snd).flatten,
          0 ≤ p.granulepos ∧ p.granulepos ≤ 2 ^ 44)
      ∧ List.Chain' (fun p q => p.granulepos ≤ q.granulepos)
          (([⟨10, 0⟩, ⟨10, 1⟩] : List Packet)
            ++ (([] : List (InBuf × List Packet)).map Prod.snd).flatten))
    ∧ (((gst_vorbisenc_run exampleState exampleHdr
          [({ timestamp := 0, samples := [1] }, [⟨10, 0⟩, ⟨10, 1⟩])]).2.drop 3).map
            OutUnit.timestamp
        = (({ timestamp := 0, samples := [1] } : InBuf).timestamp
            :: (([⟨10, 0⟩, ⟨10, 1⟩] : List Packet)
              ++ (([] : List (InBuf × List Packet)).map Prod.snd).flatten).map
              (fun p => granulepos_to_timestamp_offset
                (gst_vorbisenc_chain exampleState { timestamp := 0, samples := [1] }
                  exampleHdr [⟨10, 0⟩, ⟨10, 1⟩]).st p.granulepos)).dropLast
      ∧ List.Chain' (fun u v => u.timestamp ≤ v.timestamp
          ∧ u.duration = v.timestamp - u.timestamp)
          ((gst_vorbisenc_run exampleState exampleHdr
            [({ timestamp := 0, samples := [1] }, [⟨10, 0⟩, ⟨10, 1⟩])]).2.drop 3)
      ∧ List.Chain' (· ≤ ·)
          (((gst_vorbisenc_run exampleState exampleHdr
            [({ timestamp := 0, samples := [1] }, [⟨10, 0⟩, ⟨10, 1⟩])]).2.drop 3).map
              OutUnit.timestamp)) :=
  by
  have hmono : List.Chain' (fun p q => p.granulepos ≤ q.granulepos)
      (([⟨10, 0⟩, ⟨10, 1⟩] : List Packet)
        ++ (([] : List (InBuf × List Packet)).map Prod.snd).flatten) :=
    List.chain'_cons.mpr ⟨by decide, List.chain'_singleton _⟩
  exact ⟨⟨rfl, rfl, by decide, by decide, by decide, by decide, hmono⟩,
    C3_amended exampleState exampleHdr { timestamp := 0, samples := [1] }
      [⟨10, 0⟩, ⟨10, 1⟩] [] rfl rfl (by decide) (by decide) (by decide)
      (by decide) hmono⟩

/-- Counterexample to C3 as stated: with backend granule positions
[1, 0, 0] — all non-negative — the emitted data-unit timestamps are
[0, 40000, 0], which is not non-decreasing. -/
theorem C3_counterexample :
    (∀ p ∈ ([⟨10, 1⟩, ⟨10, 0⟩, ⟨10, 0⟩] : List Packet), 0 ≤ p.granulepos)
    ∧ ((gst_vorbisenc_chain exampleState { timestamp := 0, samples := [1] }
        exampleHdr [⟨10, 1⟩, ⟨10, 0⟩, ⟨10, 0⟩]).out.drop 3).map OutUnit.timestamp
      = [0, 40000, 0]
    ∧ ¬ List.Chain' (· ≤ ·)
        (((gst_vorbisenc_chain exampleState { timestamp := 0, samples := [1] }
          exampleHdr [⟨10, 1⟩, ⟨10, 0⟩, ⟨10, 0⟩]).out.drop 3).map OutUnit.timestamp) := by
  have h2 : ((gst_vorbisenc_chain exampleState { timestamp := 0, samples := [1] }
      exampleHdr [⟨10, 1⟩, ⟨10, 0⟩, ⟨10, 0⟩]).out.drop 3).map OutUnit.timestamp
      = [0, 40000, 0] := by decide
  refine ⟨by decide, h2, ?_⟩
  rw [h2]
  intro h
  exact absurd (List.chain'_cons.mp (List.chain'_cons.mp h).2).1 (by decide)

/-- Counterexample to C5 as stated: on the example freshly set-up
session that has received no data buffer, delivering end-of-stream
emits no units at all — in particular not the three-packet header
bundle the claim promises — and returns GST_FLOW_OK. -/
theorem C5_eos_counterexample :
    exampleState.setup = true ∧ exampleState.header_sent = false
    ∧ (gst_vorbisenc_clear exampleState []).1 = FlowReturn.ok
    ∧ (gst_vorbisenc_clear exampleState []).2.2 = []
    ∧ (gst_vorbisenc_clear exampleState []).2.2.map OutUnit.kind
        ≠ [UnitKind.hdrId, UnitKind.hdrComment, UnitKind.hdrCodebook] :=
  ⟨rfl, rfl, rfl, rfl, by decide⟩

/-- Claim C5 (amended): end-of-stream before any data buffer in a
set-up session completes without error, emits no header packets (only
whatever data packets the backend's flush yields — none for an empty
stream), and tears the session down (setup and header_sent cleared);
the header bundle is only ever emitted by the first data buffer. -/
theorem C5_eos_amended (s : State) (ps : List Packet)
    (hs : s.setup = true) (hh : s.header_sent = false) :
    (gst_vorbisenc_clear s ps).1 = FlowReturn.ok
    ∧ (∀ u ∈ (gst_vorbisenc_clear s ps).2.2, u.kind = UnitKind.data)
    ∧ (ps = [] → (gst_vorbisenc_clear s ps).2.2 = [])
    ∧ (gst_vorbisenc_clear s ps).2.1.setup = false
    ∧ (gst_vorbisenc_clear s ps).2.1.header_sent = false := by
  simp only [gst_vorbisenc_clear, if_pos hs]
  refine ⟨trivial, ?_, ?_, trivial, trivial⟩
  · intro u hu
    exact ob_kinds ps s u hu
  · intro hps
    subst hps
    rfl

/-- Witness for the amended C5 on the example fresh session with an
empty backend flush. -/
theorem C5_eos_amended_witness :
    (exampleState.setup = true ∧ exampleState.header_sent = false)
    ∧ ((gst_vorbisenc_clear exampleState []).1 = FlowReturn.ok
      ∧ (∀ u ∈ (gst_vorbisenc_clear exampleState []).2.2, u.kind = UnitKind.data)
      ∧ (([] : List Packet) = [] → (gst_vorbisenc_clear exampleState []).2.2 = [])
      ∧ (gst_vorbisenc_clear exampleState []).2.1.setup = false
      ∧ (gst_vorbisenc_clear exampleState []).2.1.header_sent = false) :=
  ⟨⟨rfl, rfl⟩, C5_eos_amended exampleState [] rfl rfl⟩


lemma chain_submitted (s : State) (buf : InBuf) (hdr : HeaderSizes)
    (ps : List Packet) (hs : s.setup = true) :
    (gst_vorbisenc_chain s buf hdr ps).submitted
      = some (deinterleave s.channels
            ((4 * buf.samples.length) / (s.channels * 4)) buf.samples,
          (4 * buf.samples.length) / (s.channels * 4))
    ∧ (gst_vorbisenc_chain s buf hdr ps).st.samples_in
      = add64 s.samples_in ((4 * buf.samples.length) / (s.channels * 4)) := by
  have hset : ¬ (s.setup = false) := by simp [hs]
  by_cases hsent : s.header_sent = true
  · simp only [gst_vorbisenc_chain, if_neg hset]
    rw [if_pos hsent]
    exact ⟨rfl, by rw [(ob_preserves ps _).2.2.2.2.2.2]⟩
  · simp only [gst_vorbisenc_chain, if_neg hset]
    rw [if_neg hsent]
    refine ⟨rfl, ?_⟩
    rw [(ob_preserves ps _).2.2.2.2.2.2]
    rfl

lemma deinterleave_getD (C n : Nat) (ds : List ℚ) (j : Nat) (hj : j < C)
    (i : Nat) (hi : i < n) :
    ((deinterleave C n ds).getD j []).getD i 0 = ds.getD (i * C + j) 0 := by
  have houter : (deinterleave C n ds).getD j []
      = (List.range n).map (fun i => ds.getD (i * C + j) 0) := by
    unfold deinterleave
    rw [List.getD_eq_getElem?_getD, List.getElem?_map, List.getElem?_range hj]
    rfl
  rw [houter, List.getD_eq_getElem?_getD, List.getElem?_map,
    List.getElem?_range hi]
  rfl

/-- Claim C9: in a set-up session a buffer of interleaved float
samples yields frame count = byte length / (channels * 4) (also
byte-free: sample count / channels), a single analysis submission of
exactly that many frames, per-channel blocks where channel j's sample
i comes from input element i * channels + j, and samples_in advanced
by exactly the frame count (guint64 addition). -/
theorem C9_deinterleave (s : State) (buf : InBuf) (hdr : HeaderSizes)
    (ps : List Packet) (hs : s.setup = true) (hc : 0 < s.channels) :
    ∃ blocks n,
      (gst_vorbisenc_chain s buf hdr ps).submitted = some (blocks, n)
      ∧ n = (4 * buf.samples.length) / (s.channels * 4)
      ∧ n = buf.samples.length / s.channels
      ∧ blocks.length = s.channels
      ∧ (∀ j, j < s.channels → ∀ i, i < n →
          (blocks.getD j []).getD i 0 = buf.samples.getD (i * s.channels + j) 0)
      ∧ (gst_vorbisenc_chain s buf hdr ps).st.samples_in = add64 s.samples_in n
      ∧ (s.samples_in + n < U64MOD →
          (gst_vorbisenc_chain s buf hdr ps).st.samples_in = s.samples_in + n) := by
  obtain ⟨hsub, hsamp⟩ := chain_submitted s buf hdr ps hs
  have hn : (4 * buf.samples.length) / (s.channels * 4)
      = buf.samples.length / s.channels := by
    rw [Nat.mul_comm s.channels 4, Nat.mul_div_mul_left _ _ (by norm_num)]
  refine ⟨_, _, hsub, rfl, hn, ?_, ?_, hsamp, ?_⟩
  · unfold deinterleave
    rw [List.length_map, List.length_range]
  · intro j hj i hi
    exact deinterleave_getD s.channels _ buf.samples j hj i hi
  · intro hlt
    rw [hsamp, add64_eq hlt]

/-- Witness for C9 on a two-channel session with five samples: two
full frames are submitted, channel 0 gets samples 0 and 2, channel 1
gets samples 1 and 3, the trailing partial frame is dropped, and
samples_in advances by 2. -/
theorem C9_deinterleave_witness :
    (({ exampleState with channels := 2 } : State).setup = true
      ∧ 0 < ({ exampleState with channels := 2 } : State).channels)
    ∧ ∃ blocks n,
      (gst_vorbisenc_chain { exampleState with channels := 2 }
          { timestamp := 0, samples := [1, 2, 3, 4, 5] } exampleHdr []).submitted
        = some (blocks, n)
      ∧ n = (4 * ([1, 2, 3, 4, 5] : List ℚ).length) / (2 * 4)
      ∧ n = ([1, 2, 3, 4, 5] : List ℚ).length / 2
      ∧ blocks.length = 2
      ∧ (∀ j, j < 2 → ∀ i, i < n →
          (blocks.getD j []).getD i 0
            = ([1, 2, 3, 4, 5] : List ℚ).getD (i * 2 + j) 0)
      ∧ (gst_vorbisenc_chain { exampleState with channels := 2 }
          { timestamp := 0, samples := [1, 2, 3, 4, 5] } exampleHdr []).st.samples_in
        = add64 0 n
      ∧ (0 + n < U64MOD →
          (gst_vorbisenc_chain { exampleState with channels := 2 }
            { timestamp := 0, samples := [1, 2, 3, 4, 5] } exampleHdr []).st.samples_in
          = 0 + n) :=
  ⟨⟨rfl, by decide⟩,
    C9_deinterleave { exampleState with channels := 2 }
      { timestamp := 0, samples := [1, 2, 3, 4, 5] } exampleHdr [] rfl (by decide)⟩

end GstVorbisEnc
